import Mathlib

/-!
A shallow embedding of `src/atropos/commands.py` (the `trim` command's parameter
construction `create_atropos_params`, the tail of `trim`, and the paired branch of
the `error` subcommand), together with theorems settling the frozen claims about
that code.

Conventions of the embedding:
* Python `None`-able values become `Option`; Python truthiness of a list is
  non-emptiness, of an `Option` it is `isSome`, of a string it is non-emptiness.
* Python floats that are only passed through (error rates, random-match
  probability bounds) are carried as `Rat`; no arithmetic is performed on them.
* `parser.error` terminates the program, so `create_atropos_params` is embedded
  as a function into `Except ConfigError ParamsModel`.
* Classes that live in modules not present under `src/` (`Modifiers`,
  `Filters`/`FilterFactory`, `Formatters`, `Writers`, `ErrorEstimator`) are
  modelled as passive event recorders, following the spec's description; each
  such definition carries a doc comment starting with `Modelled from the spec:`.
-/

namespace AtroposCommands

/-- Adapter placement flags, from `atropos.adapters` (`BACK` is the 3-prime end). -/
inductive Where where
  | FRONT
  | BACK
  | ANYWHERE
  | PREFIX
  | SUFFIX
  | LINKED
deriving DecidableEq, Repr

/-- A parsed adapter as consumed by `create_atropos_params`: the fields of the
descriptor that the command module reads (`name`, `where`, the sequence is
carried along).  `where` is a Lean keyword, hence the field name `where_`. -/
structure Adapter where
  name : String
  where_ : Where
  sequence : String
deriving DecidableEq, Repr

/-- Placeholder used for the (never inspected) head of an empty adapter list;
Python short-circuit evaluation guards every `adapters[0]` access. -/
def dummyAdapter : Adapter := ⟨"", Where.FRONT, ""⟩

/-- `options.paired`: Python `False`, `'first'` or `'both'`. -/
inductive Paired where
  | off
  | first
  | both
deriving DecidableEq, Repr

/-- `options.bisulfite`: Python `False`, a preset name string, or a list whose
entries are per-mate `MinCutter` keyword dictionaries (modelled by their
truthiness, which is all lines 288-291 test before registering). -/
inductive Bisulfite where
  | off
  | preset (s : String)
  | explicitCuts (l : List Bool)
deriving DecidableEq, Repr

/-- The options record consumed by `create_atropos_params` and `trim`
(semantic fields only; `prefix` is a Lean keyword, hence `prefix_`). -/
structure Options where
  interleaved_input : Option String
  input1 : Option String
  input2 : Option String
  aligner : String
  adapter_pair : Option (String × String)
  op_order : List Char
  quality_cutoff : Option (Nat × Nat)
  nextseq_trim : Option Nat
  quality_base : Nat
  cut : List Int
  cut2 : List Int
  cut_min : List Int
  cut_min2 : List Int
  minimum_length : Option Int
  maximum_length : Nat
  max_n : Int
  trim_n : Bool
  paired : Paired
  pair_filter : String
  bisulfite : Bisulfite
  length_tag : Option String
  strip_suffix : List String
  prefix_ : String
  suffix : String
  double_encode : Bool
  zero_cap : Bool
  trim_primer : Bool
  merge_overlapping : Bool
  merge_min_overlap : Nat
  merged_output : Option String
  error_rate : Rat
  times : Nat
  action : String
  correct_mismatches : Option String
  insert_match_error_rate : Rat
  insert_match_adapter_error_rate : Rat
  insert_max_rmp : Option Rat
  discard_trimmed : Bool
  discard_untrimmed : Bool
  untrimmed_output : Option String
  untrimmed_paired_output : Option String
  too_short_output : Option String
  too_short_paired_output : Option String
  too_long_output : Option String
  too_long_paired_output : Option String
  output : Option String
  paired_output : Option String
  interleaved_output : Option String
  no_writer_process : Bool
  rest_file : Option String
  info_file : Option String
  wildcard_file : Option String
deriving DecidableEq, Repr

/-- `sys.maxsize` on a 64-bit CPython. -/
def sysMaxsize : Nat := 2 ^ 63 - 1

/-- Arguments of one `AdapterCutter` of an `add_modifier_pair` call
(lines 254-259): the adapter list, `times` and `action`. -/
structure AdapterCutterArgs where
  adapters : List Adapter
  times : Nat
  action : String
deriving DecidableEq, Repr

/-- One modifier registration performed by `create_atropos_params`
(lines 239-323), with the constructor arguments the source passes. -/
inductive ModEvent where
  | insertAdapterCutter (adapter1 adapter2 : Adapter) (action : String)
      (mismatchAction : Option String)
      (maxInsertMismatchFrac maxAdapterMismatchFrac : Rat)
      (insertMaxRmp : Option Rat)
  | adapterCutterPair (args1 args2 : Option AdapterCutterArgs)
  | unconditionalCutterPair (lengths1 lengths2 : List Int)
  | nextseqQualityTrimmer (cutoff base : Nat)
  | qualityTrimmer (cutoffFront cutoffBack base : Nat)
  | nonDirectionalBisulfiteTrimmer (rrbs : Bool)
  | rrbsTrimmer
  | swiftBisulfiteTrimmer
  | minCutterBisulfite (read : Nat)
  | nEndTrimmer
  | minCutterPair (lengths1 lengths2 : List Int)
  | lengthTagModifier (lengthTag : String)
  | suffixRemover (suffixes : List String)
  | prefixSuffixAdder (prefixStr suffixStr : String)
  | doubleEncoder
  | zeroCapper (qualityBase : Nat)
  | primerTrimmer
  | mergeOverlapping (minOverlap : Nat) (errorRate : Rat)
deriving DecidableEq, Repr

/-- Modelled from the spec: the `Modifiers` class (`atropos.modifiers`, not under
`src/`) records which mate(s) each registered modifier targets ("which mate(s)
it targets (read=1, read=2, both)", spec 4.3).  `add_modifier` with `read=1`
targets mate 1 only, `add_modifier` without a `read` argument targets both
mates, and `add_modifier_pair` targets mate 2 exactly when its second argument
is not `None`. -/
def ModEvent.targetsRead2 : ModEvent → Bool
  | .adapterCutterPair _ args2 => args2.isSome
  | .nextseqQualityTrimmer _ _ => false
  | .minCutterBisulfite r => r == 2
  | _ => true

/-- Filter-chain registrations (`filters.add_filter` calls, lines 350-381),
with the threshold argument the source passes. -/
inductive FilterEntry where
  | tooShort (minLen : Int)
  | tooLong (maxLen : Nat)
  | nContent (maxN : Int)
  | trimmed
  | untrimmed
deriving DecidableEq, Repr

/-- Filter identities used as routing keys by `add_seq_formatter`. -/
inductive FilterKind where
  | tooShort
  | tooLong
  | nContent
  | trimmed
  | untrimmed
  | noFilter
  | mergedRead
deriving DecidableEq, Repr

/-- One `formatters.add_seq_formatter(filter_class, file1, file2=None)` call. -/
structure SeqFmt where
  kind : FilterKind
  file1 : String
  file2 : Option String
deriving DecidableEq, Repr

/-- One `formatters.add_info_formatter` call (lines 392-397). -/
inductive InfoFmt where
  | rest (file : String)
  | info (file : String)
  | wildcard (file : String)
deriving DecidableEq, Repr

/-- The observable outcome of `create_atropos_params`: what was registered with
the `Modifiers`, `Filters`, `Formatters` and `Writers` collaborators. -/
structure ParamsModel where
  modifiers : List ModEvent
  filters : List FilterEntry
  minAffected : Nat
  multiplexed : Bool
  seqFormatters : List SeqFmt
  infoFormatters : List InfoFmt
  forceCreate : List String
deriving DecidableEq, Repr

/-- The two `parser.error` sites of `create_atropos_params` that depend only on
the options record (lines 222 and 231). -/
inductive ConfigError where
  | missingAdapters
  | insertAlignerAdapters
deriving DecidableEq, Repr

/-- `create_reader`, lines 131-141: the QUAL file slot is filled from
`options.input2` exactly when input is not interleaved and not paired;
`has_qual_file` is `qualfile is not None` (line 163). -/
def hasQualFileOf (o : Options) : Bool :=
  o.interleaved_input.isNone && decide (o.paired = Paired.off) && o.input2.isSome

/-- The "You need to provide at least one adapter sequence." guard,
lines 215-221, transcribed clause by clause. -/
def missingAdapterCond (o : Options) (adapters1 adapters2 : List Adapter)
    (hasQualFile : Bool) : Prop :=
  adapters1 = [] ∧ adapters2 = [] ∧ o.quality_cutoff = none ∧
  o.nextseq_trim = none ∧ o.cut = [] ∧ o.cut2 = [] ∧
  o.cut_min = [] ∧ o.cut_min2 = [] ∧
  (o.minimum_length = none ∨ o.minimum_length.getD 0 ≤ 0) ∧
  o.maximum_length = sysMaxsize ∧ hasQualFile = false ∧
  o.max_n = -1 ∧ o.trim_n = false

instance (o : Options) (a1 a2 : List Adapter) (h : Bool) :
    Decidable (missingAdapterCond o a1 a2 h) := by
  unfold missingAdapterCond; infer_instance

/-- Lines 225-228: under the insert aligner, when `adapter_pair` is given and
both lists are non-empty, read-1 adapters are restricted to the first name.
(`options.adapter_pair` is a comma-separated pair in the source; it is modelled
already split, well-formed strings being the only ones that survive line 226.) -/
def filteredAdapters1 (o : Options) (adapters1 adapters2 : List Adapter) :
    List Adapter :=
  if o.aligner = "insert" then
    match o.adapter_pair with
    | some pr =>
        if adapters1 ≠ [] ∧ adapters2 ≠ [] then
          adapters1.filter (fun a => a.name == pr.1)
        else adapters1
    | none => adapters1
  else adapters1

/-- Lines 225-228, the read-2 restriction (second name of `adapter_pair`). -/
def filteredAdapters2 (o : Options) (adapters1 adapters2 : List Adapter) :
    List Adapter :=
  if o.aligner = "insert" then
    match o.adapter_pair with
    | some pr =>
        if adapters1 ≠ [] ∧ adapters2 ≠ [] then
          adapters2.filter (fun a => a.name == pr.2)
        else adapters2
    | none => adapters2
  else adapters2

/-- Lines 229-231: the disjunction guarding
"Insert aligner requires a single 3' adapter for each read". -/
def insertCheckFails (adapters1 adapters2 : List Adapter) : Prop :=
  adapters1 = [] ∨ adapters1.length ≠ 1 ∨
  (adapters1.headD dummyAdapter).where_ ≠ Where.BACK ∨
  adapters2 = [] ∨ adapters2.length ≠ 1 ∨
  (adapters2.headD dummyAdapter).where_ ≠ Where.BACK

instance (a1 a2 : List Adapter) : Decidable (insertCheckFails a1 a2) := by
  unfold insertCheckFails; infer_instance

/-- One iteration of the `for op in options.op_order` loop (lines 239-272):
the `if`/`elif` chain appending at most one registration. -/
def opStep (o : Options) (adapters1 adapters2 : List Adapter)
    (acc : List ModEvent) (op : Char) : List ModEvent :=
  if op = 'A' ∧ (adapters1 ≠ [] ∨ adapters2 ≠ []) then
    if o.aligner = "insert" then
      acc ++ [ModEvent.insertAdapterCutter
        (adapters1.headD dummyAdapter) (adapters2.headD dummyAdapter)
        o.action o.correct_mismatches
        o.insert_match_error_rate o.insert_match_adapter_error_rate
        o.insert_max_rmp]
    else
      acc ++ [ModEvent.adapterCutterPair
        (if adapters1 ≠ [] then some ⟨adapters1, o.times, o.action⟩ else none)
        (if adapters2 ≠ [] then some ⟨adapters2, o.times, o.action⟩ else none)]
  else if op = 'C' ∧ (o.cut ≠ [] ∨ o.cut2 ≠ []) then
    acc ++ [ModEvent.unconditionalCutterPair o.cut o.cut2]
  else if op = 'G' ∧ o.nextseq_trim ≠ none then
    acc ++ [ModEvent.nextseqQualityTrimmer (o.nextseq_trim.getD 0) o.quality_base]
  else if op = 'Q' ∧ o.quality_cutoff ≠ none then
    acc ++ [ModEvent.qualityTrimmer
      (o.quality_cutoff.getD (0, 0)).1 (o.quality_cutoff.getD (0, 0)).2
      o.quality_base]
  else acc

/-- The registrations performed by the whole `op_order` loop. -/
def opOrderMods (o : Options) (adapters1 adapters2 : List Adapter) :
    List ModEvent :=
  o.op_order.foldl (opStep o adapters1 adapters2) []

/-- The registration (if any) a single `op_order` letter performs: the
per-letter characterization of `opStep`. -/
def opEvent (o : Options) (adapters1 adapters2 : List Adapter) (op : Char) :
    Option ModEvent :=
  if op = 'A' ∧ (adapters1 ≠ [] ∨ adapters2 ≠ []) then
    some (if o.aligner = "insert" then
      ModEvent.insertAdapterCutter
        (adapters1.headD dummyAdapter) (adapters2.headD dummyAdapter)
        o.action o.correct_mismatches
        o.insert_match_error_rate o.insert_match_adapter_error_rate
        o.insert_max_rmp
    else
      ModEvent.adapterCutterPair
        (if adapters1 ≠ [] then some ⟨adapters1, o.times, o.action⟩ else none)
        (if adapters2 ≠ [] then some ⟨adapters2, o.times, o.action⟩ else none))
  else if op = 'C' ∧ (o.cut ≠ [] ∨ o.cut2 ≠ []) then
    some (ModEvent.unconditionalCutterPair o.cut o.cut2)
  else if op = 'G' ∧ o.nextseq_trim ≠ none then
    some (ModEvent.nextseqQualityTrimmer (o.nextseq_trim.getD 0) o.quality_base)
  else if op = 'Q' ∧ o.quality_cutoff ≠ none then
    some (ModEvent.qualityTrimmer
      (o.quality_cutoff.getD (0, 0)).1 (o.quality_cutoff.getD (0, 0)).2
      o.quality_base)
  else none

/-- `"non-directional" in s` (substring test, line 276). -/
def containsNonDirectional (s : String) : Bool :=
  s.data.tails.any (fun t => "non-directional".data.isPrefixOf t)

/-- Bisulfite registrations, lines 274-291. -/
def bisulfiteMods (o : Options) : List ModEvent :=
  match o.bisulfite with
  | Bisulfite.off => []
  | Bisulfite.preset s =>
      if containsNonDirectional s then
        [ModEvent.nonDirectionalBisulfiteTrimmer (s == "non-directional-rrbs")]
      else if s == "rrbs" then [ModEvent.rrbsTrimmer]
      else if s == "epignome" || s == "truseq" then []
      else if s == "swift" then [ModEvent.swiftBisulfiteTrimmer]
      else []
  | Bisulfite.explicitCuts l =>
      (if l.headD false then [ModEvent.minCutterBisulfite 1] else []) ++
      (if l.length > 1 && l.getD 1 false then [ModEvent.minCutterBisulfite 2]
       else [])

/-- The registrations following the `op_order` loop, lines 274-323, in source
order. -/
def postMods (o : Options) (qualities : Bool) : List ModEvent :=
  bisulfiteMods o
  ++ (if o.trim_n then [ModEvent.nEndTrimmer] else [])
  ++ (if o.cut_min ≠ [] ∨ o.cut_min2 ≠ [] then
        [ModEvent.minCutterPair o.cut_min o.cut_min2] else [])
  ++ (match o.length_tag with
      | some t => [ModEvent.lengthTagModifier t]
      | none => [])
  ++ (if o.strip_suffix ≠ [] then [ModEvent.suffixRemover o.strip_suffix]
      else [])
  ++ (if o.prefix_ ≠ "" ∨ o.suffix ≠ "" then
        [ModEvent.prefixSuffixAdder o.prefix_ o.suffix] else [])
  ++ (if o.double_encode then [ModEvent.doubleEncoder] else [])
  ++ (if o.zero_cap && qualities then [ModEvent.zeroCapper o.quality_base]
      else [])
  ++ (if o.trim_primer then [ModEvent.primerTrimmer] else [])
  ++ (if o.merge_overlapping then
        [ModEvent.mergeOverlapping o.merge_min_overlap o.error_rate] else [])

/-- Lines 330-337: `output1` is the interleaved output when given, else
`options.output`. -/
def output1Of (o : Options) : Option String :=
  match o.interleaved_output with
  | some s => some s
  | none => o.output

/-- Lines 330-337: `output2` is `options.paired_output`, but `None` under
interleaved output. -/
def output2Of (o : Options) : Option String :=
  match o.interleaved_output with
  | some _ => none
  | none => o.paired_output

/-- The template placeholder of multiplexed output paths
(the characters of the string "\x7bname\x7d"). -/
def nameTemplateChars : List Char := ['\x7b', 'n', 'a', 'm', 'e', '\x7d']

/-- Whether the template placeholder occurs in a path. -/
def containsTemplate : List Char → Bool
  | [] => false
  | c :: cs => nameTemplateChars.isPrefixOf (c :: cs) || containsTemplate cs

/-- Fuel-indexed single pass replacing every occurrence of the template
placeholder; the fuel is the length of the remaining input. -/
def substTemplateAux (sub : List Char) : Nat → List Char → List Char
  | 0, l => l
  | _ + 1, [] => []
  | n + 1, c :: cs =>
      if nameTemplateChars.isPrefixOf (c :: cs) then
        sub ++ substTemplateAux sub n (cs.drop 5)
      else c :: substTemplateAux sub n cs

/-- `path.format(name=sub)`: every occurrence of the placeholder replaced. -/
def formatName (s sub : String) : String :=
  ⟨substTemplateAux sub.data s.data.length s.data⟩

/-- Modelled from the spec: the `Formatters` class (`atropos.seqio`, not under
`src/`) treats the main output as multiplexed exactly when its path contains
the `name` template placeholder ("Multiplexed: a template path like
`trimmed_\x7bname\x7d.fastq`", spec 4.5). -/
def multiplexedOf : Option String → Bool
  | some s => containsTemplate s.data
  | none => false

/-- Line 350: `options.minimum_length is not None and options.minimum_length > 0`. -/
def minLenOn (o : Options) : Prop :=
  o.minimum_length ≠ none ∧ 0 < o.minimum_length.getD 0

instance (o : Options) : Decidable (minLenOn o) := by
  unfold minLenOn; infer_instance

/-- Line 385: `options.untrimmed_output or output1.format(name='unknown')`. -/
def untrimmedPath (o : Options) : String :=
  match o.untrimmed_output with
  | some s => s
  | none => formatName ((output1Of o).getD "") "unknown"

/-- The `filters.add_filter` calls of lines 350-381, in source order.  (The
source interleaves appends to the filter list, the formatter map and the
`force_create` list over lines 345-399; the three lists are independent, and
each is transcribed separately in its source order.) -/
def filterChain (o : Options) : List FilterEntry :=
  (if minLenOn o then [FilterEntry.tooShort (o.minimum_length.getD 0)] else [])
  ++ (if o.maximum_length < sysMaxsize then
        [FilterEntry.tooLong o.maximum_length] else [])
  ++ (if 0 ≤ o.max_n then [FilterEntry.nContent o.max_n] else [])
  ++ (if o.discard_trimmed then [FilterEntry.trimmed] else [])
  ++ (if o.discard_untrimmed ∨ o.untrimmed_output ≠ none then
        [FilterEntry.untrimmed] else [])

/-- The `formatters.add_seq_formatter` calls of lines 347-390, in source order. -/
def seqFormatterChain (o : Options) (defaultOutfile : String) : List SeqFmt :=
  (if o.merge_overlapping ∧ o.merged_output ≠ none then
      [⟨FilterKind.mergedRead, o.merged_output.getD "", none⟩] else [])
  ++ (if minLenOn o ∧ o.too_short_output ≠ none then
        [⟨FilterKind.tooShort, o.too_short_output.getD "",
          o.too_short_paired_output⟩] else [])
  ++ (if o.maximum_length < sysMaxsize ∧ o.too_long_output ≠ none then
        [⟨FilterKind.tooLong, o.too_long_output.getD "",
          o.too_long_paired_output⟩] else [])
  ++ (if multiplexedOf (output1Of o) then []
      else match output1Of o with
      | some s1 => [⟨FilterKind.noFilter, s1, output2Of o⟩]
      | none =>
          if ¬(o.discard_trimmed ∧ o.untrimmed_output ≠ none) then
            [⟨FilterKind.noFilter, defaultOutfile, none⟩]
          else [])
  ++ (if o.discard_untrimmed then []
      else if multiplexedOf (output1Of o) then
        [⟨FilterKind.untrimmed, untrimmedPath o, none⟩,
         ⟨FilterKind.noFilter, untrimmedPath o, none⟩]
      else match o.untrimmed_output with
      | some s => [⟨FilterKind.untrimmed, s, o.untrimmed_paired_output⟩]
      | none => [])

/-- The `force_create.append` calls of lines 345-378, in source order: under
non-multiplexed output, a given main output path guarded against `"-"` and the
writer process being disabled, then the paired output path whenever present;
with no main output, the default outfile under the same guards. -/
def forceCreateList (o : Options) (defaultOutfile : String) : List String :=
  if multiplexedOf (output1Of o) then []
  else match output1Of o with
  | some s1 =>
      if s1 ≠ "-" ∧ o.no_writer_process = false then s1 :: (output2Of o).toList
      else []
  | none =>
      if ¬(o.discard_trimmed ∧ o.untrimmed_output ≠ none) ∧
          defaultOutfile ≠ "-" ∧ o.no_writer_process = false then
        [defaultOutfile]
      else []

/-- The `formatters.add_info_formatter` calls, lines 392-397. -/
def infoFmts (o : Options) : List InfoFmt :=
  (match o.rest_file with | some f => [InfoFmt.rest f] | none => [])
  ++ (match o.info_file with | some f => [InfoFmt.info f] | none => [])
  ++ (match o.wildcard_file with | some f => [InfoFmt.wildcard f] | none => [])

/-- The record built on the success path of `create_atropos_params`
(everything after the two `parser.error` guards). -/
def mkParams (o : Options) (adapters1 adapters2 : List Adapter)
    (qualities : Bool) (defaultOutfile : String) : ParamsModel :=
  { modifiers :=
      opOrderMods o (filteredAdapters1 o adapters1 adapters2)
        (filteredAdapters2 o adapters1 adapters2) ++ postMods o qualities
    filters := filterChain o
    minAffected := if o.pair_filter = "both" then 2 else 1
    multiplexed := multiplexedOf (output1Of o)
    seqFormatters := seqFormatterChain o defaultOutfile
    infoFormatters := infoFmts o
    forceCreate := forceCreateList o defaultOutfile }

/-- `create_atropos_params(options, parser, default_outfile)`, lines 168-401.
`adapters1`/`adapters2` are the results of `AdapterParser.parse_multi` and
`qualities` is `reader.delivers_qualities`; both come from modules outside
`src/` and enter as parameters.  The two options-dependent `parser.error`
sites become the `Except.error` branches. -/
def createAtroposParams (o : Options) (adapters1 adapters2 : List Adapter)
    (qualities : Bool) (defaultOutfile : String) :
    Except ConfigError ParamsModel :=
  if missingAdapterCond o adapters1 adapters2 (hasQualFileOf o) then
    Except.error ConfigError.missingAdapters
  else if o.aligner = "insert" ∧
      insertCheckFails (filteredAdapters1 o adapters1 adapters2)
        (filteredAdapters2 o adapters1 adapters2) then
    Except.error ConfigError.insertAlignerAdapters
  else
    Except.ok (mkParams o adapters1 adapters2 qualities defaultOutfile)

/-- Modelled from the spec: `Modifiers.get_modifiers(read=2)` (module not under
`src/`) returns the registered modifiers that target mate 2. -/
def getModifiers2 (mods : List ModEvent) : List ModEvent :=
  mods.filter (fun e => e.targetsRead2)

/-- The condition of the legacy-paired-mode warning in `trim`, line 95:
`options.paired == 'first' and (len(params.modifiers.get_modifiers(read=2)) > 0
or options.quality_cutoff)`. -/
def trimWarning (o : Options) (p : ParamsModel) : Prop :=
  o.paired = Paired.first ∧
    (0 < (getModifiers2 p.modifiers).length ∨ o.quality_cutoff ≠ none)

instance (o : Options) (p : ParamsModel) : Decidable (trimWarning o p) := by
  unfold trimWarning; infer_instance

/-- How `trim` ends after the executor returns, lines 116-126: either the
process exits through `sys.exit` or the run report is printed. -/
inductive TrimEnd where
  | exited (code : Int)
  | reported
deriving DecidableEq, Repr

/-- Lines 116-126: `if rc != 0: sys.exit(rc)`, then `print_report(...)`. -/
def trimFinish (rc : Int) : TrimEnd :=
  if rc ≠ 0 then TrimEnd.exited rc else TrimEnd.reported

/-- Modelled from the spec: the pair-combination rule of `FilterFactory`
(`atropos.filters`, not under `src/`): a pair is filtered when the number of
failing mates reaches `min_affected` (spec 4.4: "any: pair fails if either
mate fails; both: pair fails only if both fail"). -/
def pairFails (minAffected : Nat) (fails1 fails2 : Bool) : Bool :=
  decide (minAffected ≤ (cond fails1 1 0) + (cond fails2 1 0))

/-- Modelled from the spec: the `ErrorEstimator` of the error-rate subcommand
(module not under `src/`); it accumulates totals over consumed sequences.  Its
internals are irrelevant to the name-binding bug in `commands.error`. -/
structure ErrorEstimator where
  total_qual : Nat
  total_len : Nat
deriving DecidableEq, Repr

/-- `ErrorEstimator()`. -/
def ErrorEstimator.new : ErrorEstimator := ⟨0, 0⟩

/-- `estimator.consume(sequence)`. -/
def ErrorEstimator.consume (e : ErrorEstimator) (sequence : String) :
    ErrorEstimator :=
  ⟨e.total_qual + sequence.length, e.total_len + sequence.length⟩

/-- A Python runtime error, as far as the `error` subcommand can raise one
through an undefined name. -/
inductive PyExc where
  | nameError (name : String)
deriving DecidableEq, Repr

/-- The lines the paired branch of `error` prints (lines 65-72); an error-rate
line is emitted only after the corresponding `estimate()` call returned. -/
inductive PrintEvent where
  | fileHeader (fileIndex : Nat)
  | perFileErrorRate (fileIndex : Nat)
  | overallErrorRate
deriving DecidableEq, Repr

/-- The local names of the paired branch of `error`.  Line 60 is the tuple
assignment `e1, e1 = (ErrorEstimator() for i in (1,2))`: both unpacking targets
are the name `e1` (assigned left to right), so `e1` ends up bound to the second
estimator and the name `e2` is never bound. -/
structure ErrorPairedEnv where
  e1 : Option ErrorEstimator
  e2 : Option ErrorEstimator
deriving DecidableEq, Repr

/-- The environment after line 60. -/
def errorPairedInit : ErrorPairedEnv :=
  { e1 := some ErrorEstimator.new, e2 := none }

/-- The loop of lines 61-63: each iteration evaluates `e1.consume(...)` then
`e2.consume(...)`; reading an unbound name raises `NameError`. -/
def errorPairedLoop :
    List (String × String) → ErrorPairedEnv → Except PyExc ErrorPairedEnv
  | [], env => Except.ok env
  | (read1, read2) :: rest, env =>
      match env.e1 with
      | none => Except.error (PyExc.nameError "e1")
      | some est1 =>
          let env := { env with e1 := some (est1.consume read1) }
          match env.e2 with
          | none => Except.error (PyExc.nameError "e2")
          | some est2 =>
              errorPairedLoop rest { env with e2 := some (est2.consume read2) }

/-- The paired branch of `error`, lines 59-72: the consume loop, then the four
report prints (each `format(...estimate())` argument is evaluated before its
`print`, so a crash inside `format` suppresses that line).  Returns the lines
printed and the uncaught exception, if any. -/
def errorPairedBranch (pairs : List (String × String)) :
    List PrintEvent × Option PyExc :=
  match errorPairedLoop pairs errorPairedInit with
  | Except.error exc => ([], some exc)
  | Except.ok env =>
      match env.e1 with
      | none => ([PrintEvent.fileHeader 1], some (PyExc.nameError "e1"))
      | some _ =>
          match env.e2 with
          | none =>
              ([PrintEvent.fileHeader 1, PrintEvent.perFileErrorRate 1,
                PrintEvent.fileHeader 2], some (PyExc.nameError "e2"))
          | some _ =>
              ([PrintEvent.fileHeader 1, PrintEvent.perFileErrorRate 1,
                PrintEvent.fileHeader 2, PrintEvent.perFileErrorRate 2,
                PrintEvent.overallErrorRate], none)

/-- The configuration the insert aligner accepts (what line 231's error message
describes): after the optional `adapter_pair` restriction, exactly one adapter
per read, both placed `BACK`. -/
def insertAlignerOk (adapters1 adapters2 : List Adapter) : Prop :=
  ∃ x y, adapters1 = [x] ∧ adapters2 = [y] ∧
    x.where_ = Where.BACK ∧ y.where_ = Where.BACK

instance (a1 a2 : List Adapter) : Decidable (insertAlignerOk a1 a2) :=
  decidable_of_iff
    (∃ x ∈ a1, ∃ y ∈ a2, a1 = [x] ∧ a2 = [y] ∧
      x.where_ = Where.BACK ∧ y.where_ = Where.BACK)
    (by
      constructor
      · rintro ⟨x, -, y, -, h⟩; exact ⟨x, y, h⟩
      · rintro ⟨x, y, h1, h2, h3, h4⟩
        exact ⟨x, by simp [h1], y, by simp [h2], h1, h2, h3, h4⟩)

/-- Extracts the parameters record from a successful `create_atropos_params`
run (used to state closed evaluations at concrete options records). -/
def okParams (r : Except ConfigError ParamsModel) : ParamsModel :=
  match r with
  | Except.ok p => p
  | Except.error _ => ⟨[], [], 0, false, [], [], []⟩

/-- A neutral options record (everything off) from which the concrete
evaluation records below are built. -/
def baseOpts : Options :=
  { interleaved_input := none
    input1 := some "reads1.fastq"
    input2 := none
    aligner := "adapter"
    adapter_pair := none
    op_order := ['C', 'G', 'Q', 'A']
    quality_cutoff := none
    nextseq_trim := none
    quality_base := 33
    cut := []
    cut2 := []
    cut_min := []
    cut_min2 := []
    minimum_length := none
    maximum_length := sysMaxsize
    max_n := -1
    trim_n := false
    paired := Paired.off
    pair_filter := "any"
    bisulfite := Bisulfite.off
    length_tag := none
    strip_suffix := []
    prefix_ := ""
    suffix := ""
    double_encode := false
    zero_cap := false
    trim_primer := false
    merge_overlapping := false
    merge_min_overlap := 10
    merged_output := none
    error_rate := 1 / 10
    times := 1
    action := "trim"
    correct_mismatches := none
    insert_match_error_rate := 1 / 5
    insert_match_adapter_error_rate := 1 / 5
    insert_max_rmp := none
    discard_trimmed := false
    discard_untrimmed := false
    untrimmed_output := none
    untrimmed_paired_output := none
    too_short_output := none
    too_short_paired_output := none
    too_long_output := none
    too_long_paired_output := none
    output := none
    paired_output := none
    interleaved_output := none
    no_writer_process := false
    rest_file := none
    info_file := none
    wildcard_file := none }

/-- Insert-aligner evaluation record: one `BACK` adapter per read. -/
def insertOpts : Options := { baseOpts with aligner := "insert" }

/-- Evaluation adapters for `insertOpts`. -/
def insertA1 : List Adapter := [⟨"adapterR1", Where.BACK, "ACGTACGT"⟩]

/-- Evaluation adapters for `insertOpts` (read 2). -/
def insertA2 : List Adapter := [⟨"adapterR2", Where.BACK, "TGCATGCA"⟩]

/-- Evaluation record for the `op_order` claim: unconditional cut and NextSeq
trimming enabled, adapters and quality trimming off. -/
def opOrderOpts : Options :=
  { baseOpts with cut := [3], nextseq_trim := some 20 }

/-- Evaluation record for the legacy-paired-mode warning: `paired='first'`
with a quality cutoff. -/
def legacyOpts : Options :=
  { baseOpts with paired := Paired.first, quality_cutoff := some (0, 15) }

/-- Evaluation record refuting the stdout clause of the `force_create` claim:
an ordinary main output with `"-"` as the paired output. -/
def dashPairedOpts : Options :=
  { baseOpts with
    paired := Paired.both
    quality_cutoff := some (0, 20)
    output := some "out1.fastq"
    paired_output := some "-" }

/-- Evaluation record for multiplexed output: the main output path carries the
`name` template and untrimmed reads are kept. -/
def multiplexOpts : Options :=
  { baseOpts with
    quality_cutoff := some (0, 20)
    output := some "trimmed_\x7bname\x7d.fastq" }

/-- Evaluation record for the pair-filter claim: `pair_filter='both'`. -/
def bothFilterOpts : Options :=
  { baseOpts with pair_filter := "both", trim_n := true }

/-- Evaluation record for the filter-priority claim: length, N-content and
trimmed filters all enabled. -/
def filterPriorityOpts : Options :=
  { baseOpts with
    minimum_length := some 20
    max_n := 2
    discard_trimmed := true
    quality_cutoff := some (0, 20) }

/-! ## Helper lemmas -/

theorem opStep_eq (o : Options) (a1 a2 : List Adapter) (acc : List ModEvent)
    (op : Char) :
    opStep o a1 a2 acc op = acc ++ (opEvent o a1 a2 op).toList := by
  unfold opStep opEvent
  repeat' split <;> simp_all

theorem opOrderMods_foldl (o : Options) (a1 a2 : List Adapter) :
    ∀ (l : List Char) (acc : List ModEvent),
      l.foldl (opStep o a1 a2) acc = acc ++ l.filterMap (opEvent o a1 a2)
  | [], acc => by simp
  | c :: cs, acc => by
      rw [List.foldl_cons, opOrderMods_foldl o a1 a2 cs, opStep_eq]
      cases h : opEvent o a1 a2 c <;> simp [List.filterMap_cons, h]

theorem opOrderMods_eq_filterMap (o : Options) (a1 a2 : List Adapter) :
    opOrderMods o a1 a2 = o.op_order.filterMap (opEvent o a1 a2) := by
  unfold opOrderMods
  rw [opOrderMods_foldl]
  simp

theorem create_ok_elim {o : Options} {a1 a2 : List Adapter} {q : Bool}
    {d : String} {p : ParamsModel}
    (h : createAtroposParams o a1 a2 q d = Except.ok p) :
    p = mkParams o a1 a2 q d := by
  unfold createAtroposParams at h
  split at h
  · simp at h
  · split at h
    · simp at h
    · simp only [Except.ok.injEq] at h
      exact h.symm

theorem create_error_missing_iff (o : Options) (a1 a2 : List Adapter)
    (q : Bool) (d : String) :
    createAtroposParams o a1 a2 q d =
        Except.error ConfigError.missingAdapters ↔
      missingAdapterCond o a1 a2 (hasQualFileOf o) := by
  unfold createAtroposParams
  split
  · simp [*]
  · split <;> simp_all

theorem create_error_exists_iff (o : Options) (a1 a2 : List Adapter)
    (q : Bool) (d : String) :
    (∃ e, createAtroposParams o a1 a2 q d = Except.error e) ↔
      (missingAdapterCond o a1 a2 (hasQualFileOf o) ∨
        (o.aligner = "insert" ∧
          insertCheckFails (filteredAdapters1 o a1 a2)
            (filteredAdapters2 o a1 a2))) := by
  unfold createAtroposParams
  split
  · simp [*]
  · split <;> simp_all

theorem not_insertCheckFails_iff (a1 a2 : List Adapter) :
    ¬ insertCheckFails a1 a2 ↔ insertAlignerOk a1 a2 := by
  unfold insertCheckFails insertAlignerOk
  constructor
  · intro h
    push_neg at h
    obtain ⟨h1, h2, h3, h4, h5, h6⟩ := h
    obtain ⟨x, rfl⟩ := List.length_eq_one.mp h2
    obtain ⟨y, rfl⟩ := List.length_eq_one.mp h5
    exact ⟨x, y, rfl, rfl, by simpa using h3, by simpa using h6⟩
  · rintro ⟨x, y, rfl, rfl, hx, hy⟩
    simp [hx, hy]

theorem filteredAdapters1_of_nil (o : Options) (a2 : List Adapter) :
    filteredAdapters1 o [] a2 = [] := by
  unfold filteredAdapters1
  repeat' split <;> simp_all

theorem filteredAdapters2_of_nil (o : Options) (a1 : List Adapter) :
    filteredAdapters2 o a1 [] = [] := by
  unfold filteredAdapters2
  repeat' split <;> simp_all

/-! ## Claim theorems -/

/-- C1: `create_atropos_params` reports the "You need to provide at least one
adapter sequence." configuration error (line 222) if and only if no adapters
were parsed for either read and no alternative trimming criterion is set:
`quality_cutoff` unset, `nextseq_trim` `None`, `cut`, `cut2`, `cut_min`,
`cut_min2` all empty, `minimum_length` `None` or non-positive,
`maximum_length` equal to `sys.maxsize`, no QUAL file supplied,
`max_n == -1` and `trim_n` false. -/
theorem missing_adapter_error_iff (o : Options) (a1 a2 : List Adapter)
    (q : Bool) (d : String) :
    createAtroposParams o a1 a2 q d =
        Except.error ConfigError.missingAdapters ↔
      (a1 = [] ∧ a2 = [] ∧ o.quality_cutoff = none ∧ o.nextseq_trim = none ∧
       o.cut = [] ∧ o.cut2 = [] ∧ o.cut_min = [] ∧ o.cut_min2 = [] ∧
       (o.minimum_length = none ∨ ∃ m, o.minimum_length = some m ∧ m ≤ 0) ∧
       o.maximum_length = sysMaxsize ∧ hasQualFileOf o = false ∧
       o.max_n = -1 ∧ o.trim_n = false) := by
  rw [create_error_missing_iff]
  unfold missingAdapterCond
  cases h : o.minimum_length <;> simp [h]

/-- C2: with `options.aligner == 'insert'`, `create_atropos_params` reports a
configuration error exactly unless, after the optional `adapter_pair`
restriction, there is exactly one adapter per read and both are `BACK`
adapters; and on success that single `BACK` pair is what the registered
`InsertAdapterCutter` receives (for any `op_order` containing `'A'`). -/
theorem insert_aligner_single_back_pair (o : Options) (a1 a2 : List Adapter)
    (q : Bool) (d : String) (h : o.aligner = "insert") :
    ((∃ e, createAtroposParams o a1 a2 q d = Except.error e) ↔
      ¬ insertAlignerOk (filteredAdapters1 o a1 a2)
          (filteredAdapters2 o a1 a2)) ∧
    (∀ x y, filteredAdapters1 o a1 a2 = [x] →
      filteredAdapters2 o a1 a2 = [y] → 'A' ∈ o.op_order →
      ∀ p, createAtroposParams o a1 a2 q d = Except.ok p →
        ModEvent.insertAdapterCutter x y o.action o.correct_mismatches
          o.insert_match_error_rate o.insert_match_adapter_error_rate
          o.insert_max_rmp ∈ p.modifiers) := by
  constructor
  · rw [create_error_exists_iff]
    constructor
    · rintro (hm | ⟨-, hf⟩)
      · intro hok
        obtain ⟨x, y, hx, hy, -, -⟩ := hok
        have h1 : a1 = [] := hm.1
        rw [h1, filteredAdapters1_of_nil] at hx
        exact List.cons_ne_nil x [] hx.symm
      · exact fun hok => (not_insertCheckFails_iff _ _).mpr hok hf
    · intro hok
      right
      exact ⟨h, by
        by_contra hf
        exact hok ((not_insertCheckFails_iff _ _).mp hf)⟩
  · intro x y hx hy hA p hp
    rw [create_ok_elim hp]
    unfold mkParams
    simp only []
    rw [opOrderMods_eq_filterMap]
    refine List.mem_append_left _ (List.mem_filterMap.mpr ⟨'A', hA, ?_⟩)
    unfold opEvent
    rw [if_pos, if_pos h]
    · rw [hx, hy]
      rfl
    · exact ⟨rfl, Or.inl (by simp [hx])⟩

/-- Witness for C2: a single `BACK` adapter pair under the insert aligner is
accepted and handed to the registered `InsertAdapterCutter`. -/
theorem insert_aligner_single_back_pair_witness :
    ModEvent.insertAdapterCutter ⟨"adapterR1", Where.BACK, "ACGTACGT"⟩
        ⟨"adapterR2", Where.BACK, "TGCATGCA"⟩ "trim" none (1 / 5) (1 / 5)
        none ∈
      (okParams (createAtroposParams insertOpts insertA1 insertA2 true
        "-")).modifiers :=
  (insert_aligner_single_back_pair insertOpts insertA1 insertA2 true "-"
      rfl).2
    ⟨"adapterR1", Where.BACK, "ACGTACGT"⟩
    ⟨"adapterR2", Where.BACK, "TGCATGCA"⟩ rfl rfl (by decide) _ rfl

/-- C3: on a successful run, the modifier list is exactly the categorical
`op_order` groups in the left-to-right order of the letters of `op_order`
(each letter contributing its group only when its enabling option is set:
`'A'` the adapter cutters — `InsertAdapterCutter` under the insert aligner,
otherwise the `AdapterCutter` pair — when adapters are present, `'C'` the
`UnconditionalCutter` pair when `cut` or `cut2` is non-empty, `'G'` the
read-1 `NextseqQualityTrimmer` when `nextseq_trim` is set, `'Q'` the
`QualityTrimmer` with `cutoff_front`/`cutoff_back` from `quality_cutoff`
when it is set — this per-letter mapping is `opEvent`), followed by all
remaining modifiers (bisulfite, `NEndTrimmer`, `MinCutter`, ...). -/
theorem op_order_registration (o : Options) (a1 a2 : List Adapter) (q : Bool)
    (d : String) (p : ParamsModel)
    (h : createAtroposParams o a1 a2 q d = Except.ok p) :
    p.modifiers =
      o.op_order.filterMap
        (opEvent o (filteredAdapters1 o a1 a2) (filteredAdapters2 o a1 a2))
      ++ postMods o q := by
  rw [create_ok_elim h]
  unfold mkParams
  rw [opOrderMods_eq_filterMap]

/-- Witness for C3 at a configuration with an unconditional cut and NextSeq
trimming enabled. -/
theorem op_order_registration_witness :
    (okParams (createAtroposParams opOrderOpts [] [] true
        "out.fastq")).modifiers =
      opOrderOpts.op_order.filterMap
        (opEvent opOrderOpts (filteredAdapters1 opOrderOpts [] [])
          (filteredAdapters2 opOrderOpts [] []))
      ++ postMods opOrderOpts true :=
  op_order_registration opOrderOpts [] [] true "out.fastq"
    (okParams (createAtroposParams opOrderOpts [] [] true "out.fastq")) rfl

/-- C4: in the paired branch of the `error` subcommand, the tuple assignment
of line 60 binds the name `e1` twice, so `e2` is never defined; on any
non-empty paired input the branch raises a NameError at its first use of `e2`
(the `e2.consume` of the first loop iteration) and prints nothing — in
particular no per-file and no overall error rate. -/
theorem error_paired_name_e2_undefined (pairs : List (String × String))
    (h : pairs ≠ []) :
    errorPairedBranch pairs = ([], some (PyExc.nameError "e2")) := by
  cases pairs with
  | nil => exact absurd rfl h
  | cons pr rest =>
      obtain ⟨read1, read2⟩ := pr
      rfl

/-- Witness for C4 at a one-pair input. -/
theorem error_paired_name_e2_undefined_witness :
    errorPairedBranch [("ACGTACGT", "GGGGTTTT")] =
      ([], some (PyExc.nameError "e2")) :=
  error_paired_name_e2_undefined [("ACGTACGT", "GGGGTTTT")] (by decide)

/-- C5: the legacy-paired-mode warning of `trim` (line 95) is logged if and
only if `options.paired == 'first'` and (at least one registered modifier
targets read 2, or `options.quality_cutoff` is set); no other configuration
emits it. -/
theorem legacy_first_warning_iff (o : Options) (a1 a2 : List Adapter)
    (q : Bool) (d : String) (p : ParamsModel)
    (h : createAtroposParams o a1 a2 q d = Except.ok p) :
    trimWarning o p ↔
      (o.paired = Paired.first ∧
        ((∃ e ∈ p.modifiers, e.targetsRead2 = true) ∨
          o.quality_cutoff ≠ none)) := by
  simp [trimWarning, getModifiers2, List.length_pos_iff_exists_mem,
    List.mem_filter]

/-- Witness for C5 at a legacy-mode configuration with a quality cutoff: the
warning is emitted. -/
theorem legacy_first_warning_iff_witness :
    trimWarning legacyOpts
      (okParams (createAtroposParams legacyOpts [] [] true "-")) :=
  (legacy_first_warning_iff legacyOpts [] [] true "-"
    (okParams (createAtroposParams legacyOpts [] [] true "-")) rfl).mpr
    ⟨rfl, Or.inr (by decide)⟩

/-- Counterexample to C6 as stated: with the ordinary main output
`out1.fastq` and `"-"` as the paired output, line 374 appends the paired path
unguarded, so stdout (`"-"`) is force-created. -/
theorem force_create_contains_stdout :
    (okParams (createAtroposParams dashPairedOpts [] [] true
        "-")).forceCreate = ["out1.fastq", "-"] := rfl

/-- C6 (amended): a path is in `force_create` iff output is not multiplexed,
the writer process is enabled, and either an explicit main output is given
whose path is not `"-"` and the path is that main path or the paired-output
path (the paired path is appended unguarded, even when it is `"-"`: only the
main and default paths are checked against stdout), or no main output is
given, it is not the discard_trimmed-with-untrimmed_output case, and the path
is the default outfile, itself not `"-"`. -/
theorem force_create_membership (o : Options) (a1 a2 : List Adapter)
    (q : Bool) (d : String) (p : ParamsModel)
    (h : createAtroposParams o a1 a2 q d = Except.ok p) (path : String) :
    path ∈ p.forceCreate ↔
      (multiplexedOf (output1Of o) = false ∧ o.no_writer_process = false ∧
        ((∃ s1, output1Of o = some s1 ∧ s1 ≠ "-" ∧
            (path = s1 ∨ output2Of o = some path)) ∨
          (output1Of o = none ∧
            ¬(o.discard_trimmed ∧ o.untrimmed_output ≠ none) ∧
            d ≠ "-" ∧ path = d))) := by
  have hp := create_ok_elim h
  subst hp
  show path ∈ forceCreateList o d ↔ _
  unfold forceCreateList
  by_cases hm : multiplexedOf (output1Of o) = true
  · rw [if_pos hm]
    simp [hm]
  · rw [if_neg hm]
    rw [Bool.not_eq_true] at hm
    split
    next s1 heq =>
      rw [heq] at hm ⊢
      by_cases hc : s1 ≠ "-" ∧ o.no_writer_process = false
      · rw [if_pos hc]
        cases ho2 : output2Of o with
        | none =>
            simp only [hm]
            simp only [List.mem_cons, List.not_mem_nil, or_false]
            simp [hc.1, hc.2]
        | some s2 =>
            simp only [hm]
            simp only [List.mem_cons, List.not_mem_nil, or_false]
            simp [hc.1, hc.2]
            exact or_congr_right eq_comm
      · rw [if_neg hc]
        constructor
        · intro hmem
          exact absurd hmem (List.not_mem_nil path)
        · rintro ⟨-, hw, (⟨s1x, hs1, hdash, -⟩ | ⟨hnone, -⟩)⟩
          · injection hs1 with h12
            subst h12
            exact absurd ⟨hdash, hw⟩ hc
          · exact Option.noConfusion hnone
    next heq =>
      rw [heq] at hm ⊢
      by_cases hc : ¬(o.discard_trimmed ∧ o.untrimmed_output ≠ none) ∧
          d ≠ "-" ∧ o.no_writer_process = false
      · rw [if_pos hc]
        simp only [hm]
        simp [hc.1, hc.2.1, hc.2.2]
      · rw [if_neg hc]
        constructor
        · intro hmem
          exact absurd hmem (List.not_mem_nil path)
        · rintro ⟨-, hw, (⟨s1x, hs1, -⟩ | ⟨-, hdt, hd, -⟩)⟩
          · exact Option.noConfusion hs1
          · exact absurd ⟨hdt, hd, hw⟩ hc

/-- Witness for C6 (amended) at the `dashPairedOpts` record with path `"-"`:
the stdout paired path is a member because the stdout guard covers only the
main path. -/
theorem force_create_membership_witness :
    "-" ∈ (okParams (createAtroposParams dashPairedOpts [] [] true
        "-")).forceCreate :=
  (force_create_membership dashPairedOpts [] [] true "-"
      (okParams (createAtroposParams dashPairedOpts [] [] true "-")) rfl
      "-").mpr
    ⟨rfl, rfl, Or.inl ⟨"out1.fastq", rfl, by decide, Or.inr rfl⟩⟩

/-- C7: under multiplexed output with `discard_untrimmed` false, the
`UntrimmedFilter` kind and the `NoFilter` kind are both routed to the same
reserved sink, whose path is `options.untrimmed_output` when given and
otherwise the main output template with the `name` placeholder replaced by
the literal `unknown` (lines 383-387). -/
theorem multiplexed_untrimmed_routing (o : Options) (a1 a2 : List Adapter)
    (q : Bool) (d : String) (p : ParamsModel)
    (h : createAtroposParams o a1 a2 q d = Except.ok p)
    (hm : p.multiplexed = true) (hu : o.discard_untrimmed = false) :
    ∃ u, (o.untrimmed_output = some u ∨
        (o.untrimmed_output = none ∧
          u = formatName ((output1Of o).getD "") "unknown")) ∧
      (⟨FilterKind.untrimmed, u, none⟩ : SeqFmt) ∈ p.seqFormatters ∧
      (⟨FilterKind.noFilter, u, none⟩ : SeqFmt) ∈ p.seqFormatters := by
  have hp := create_ok_elim h
  subst hp
  replace hm : multiplexedOf (output1Of o) = true := hm
  refine ⟨untrimmedPath o, ?_, ?_, ?_⟩
  · unfold untrimmedPath
    cases hu2 : o.untrimmed_output <;> simp [hu2]
  · show _ ∈ seqFormatterChain o d
    unfold seqFormatterChain
    simp only [hm]
    simp [hu]
  · show _ ∈ seqFormatterChain o d
    unfold seqFormatterChain
    simp only [hm]
    simp [hu]

/-- Witness for C7 at a multiplexed configuration without an explicit
untrimmed output: both kinds are routed to the template instantiated at
`unknown`. -/
theorem multiplexed_untrimmed_routing_witness :
    (⟨FilterKind.untrimmed, "trimmed_unknown.fastq", none⟩ : SeqFmt) ∈
      (okParams (createAtroposParams multiplexOpts [] [] true
        "-")).seqFormatters ∧
    (⟨FilterKind.noFilter, "trimmed_unknown.fastq", none⟩ : SeqFmt) ∈
      (okParams (createAtroposParams multiplexOpts [] [] true
        "-")).seqFormatters := by
  obtain ⟨u, hu, h1, h2⟩ :=
    multiplexed_untrimmed_routing multiplexOpts [] [] true "-"
      (okParams (createAtroposParams multiplexOpts [] [] true "-")) rfl rfl
      rfl
  rcases hu with hu | ⟨-, rfl⟩
  · exact Option.noConfusion hu
  · exact ⟨h1, h2⟩

/-- C8: the `FilterFactory` is built with `min_affected = 2` exactly when
`pair_filter == 'both'` and with `min_affected = 1` for every other mode
(line 327); under the spec's pair rule, `min_affected = 2` means both mates
must fail and `min_affected = 1` means either mate failing suffices. -/
theorem pair_filter_min_affected (o : Options) (a1 a2 : List Adapter)
    (q : Bool) (d : String) (p : ParamsModel)
    (h : createAtroposParams o a1 a2 q d = Except.ok p) :
    (p.minAffected = if o.pair_filter = "both" then 2 else 1) ∧
    (∀ fails1 fails2 : Bool, pairFails 2 fails1 fails2 = (fails1 && fails2)) ∧
    (∀ fails1 fails2 : Bool, pairFails 1 fails1 fails2 = (fails1 || fails2)) := by
  refine ⟨?_, by decide, by decide⟩
  rw [create_ok_elim h]
  rfl

/-- Witness for C8 at `pair_filter = 'both'`: `min_affected` is 2. -/
theorem pair_filter_min_affected_witness :
    (okParams (createAtroposParams bothFilterOpts [] [] true
      "-")).minAffected = 2 :=
  ((pair_filter_min_affected bothFilterOpts [] [] true "-"
      (okParams (createAtroposParams bothFilterOpts [] [] true "-"))
      rfl).1).trans (by decide)

/-- C9: when the executor returns a non-zero `rc`, `trim` exits the process
with code `rc` (line 117) and the run report is not printed; the report is
printed exactly when `rc == 0`. -/
theorem trim_exit_on_nonzero_rc (rc : Int) :
    (rc ≠ 0 → trimFinish rc = TrimEnd.exited rc) ∧
    (trimFinish rc = TrimEnd.reported ↔ rc = 0) := by
  unfold trimFinish
  by_cases h : rc = 0 <;> simp [h]

/-- Witness for C9 at `rc = 2` and `rc = 0`. -/
theorem trim_exit_on_nonzero_rc_witness :
    trimFinish 2 = TrimEnd.exited 2 ∧ trimFinish 0 = TrimEnd.reported :=
  ⟨(trim_exit_on_nonzero_rc 2).1 (by decide),
    (trim_exit_on_nonzero_rc 0).2.mpr rfl⟩

/-- C10: the filter chain is registered in the fixed priority order
`TooShortReadFilter`, `TooLongReadFilter`, `NContentFilter`, `TrimmedFilter`,
`UntrimmedFilter`, each present exactly when its enabling option is set
(`minimum_length > 0`, `maximum_length < sys.maxsize`, `max_n >= 0`,
`discard_trimmed`, `discard_untrimmed`-or-`untrimmed_output`); consequently a
pair failing an earlier filter is owned by it — in particular, whenever the
too-short filter is enabled and a predicate accepts its entry, the first
match of the chain is that entry, regardless of the other options. -/
theorem filter_priority_order (o : Options) (a1 a2 : List Adapter) (q : Bool)
    (d : String) (p : ParamsModel)
    (h : createAtroposParams o a1 a2 q d = Except.ok p) :
    (p.filters =
      (if minLenOn o then [FilterEntry.tooShort (o.minimum_length.getD 0)]
       else [])
      ++ (if o.maximum_length < sysMaxsize then
            [FilterEntry.tooLong o.maximum_length] else [])
      ++ (if 0 ≤ o.max_n then [FilterEntry.nContent o.max_n] else [])
      ++ (if o.discard_trimmed then [FilterEntry.trimmed] else [])
      ++ (if o.discard_untrimmed ∨ o.untrimmed_output ≠ none then
            [FilterEntry.untrimmed] else [])) ∧
    (minLenOn o → ∀ fl : FilterEntry → Bool,
      fl (FilterEntry.tooShort (o.minimum_length.getD 0)) = true →
      p.filters.find? fl =
        some (FilterEntry.tooShort (o.minimum_length.getD 0))) := by
  have hp := create_ok_elim h
  subst hp
  constructor
  · rfl
  · intro hmin fl hfl
    show (filterChain o).find? fl = _
    unfold filterChain
    rw [if_pos hmin]
    simp [List.find?_cons, hfl]

/-- Witness for C10 at a configuration enabling the length, N-content and
trimmed filters: a predicate accepting the too-short entry finds it first. -/
theorem filter_priority_order_witness :
    (okParams (createAtroposParams filterPriorityOpts [] [] true
      "-")).filters.find? (fun e => e == FilterEntry.tooShort 20) =
      some (FilterEntry.tooShort 20) :=
  (filter_priority_order filterPriorityOpts [] [] true "-"
      (okParams (createAtroposParams filterPriorityOpts [] [] true "-"))
      rfl).2
    (by decide) (fun e => e == FilterEntry.tooShort 20) (by decide)

end AtroposCommands
